import Mathlib

/-!
Shallow embedding of the core of the Zenipay payment portal: the
transaction workflow routes (`src/routes/payments.js`, two variants),
the input validators (`src/utils/auth.js`), and the SWIFT OAuth2 token
lifecycle (`src/services/swiftAuthService.js` and
`src/services/swiftPreValidationService.js` plus the employee-dashboard
pre-validation flow).  Pure functions of the source become Lean
functions; the database tables become explicit lists threaded through
each operation; the external HTTP collaborators (token endpoint,
pre-validation endpoints, revocation endpoint) become oracle parameters.
-/

namespace Zenipay

/-! ## Character classes used by the validation regexes -/

/-- Matches the character class `[A-Z]` of the source regexes. -/
def isUpperAZ (c : Char) : Bool := 'A' ≤ c && c ≤ 'Z'

/-- Matches the character class `[0-9]`. -/
def isDigit09 (c : Char) : Bool := '0' ≤ c && c ≤ '9'

/-- Matches the character class `[A-Z0-9]`. -/
def isUpperAlnum (c : Char) : Bool := isUpperAZ c || isDigit09 c

/-- Matches the character class `[0-9a-fA-F]` (hex digit, case-insensitive). -/
def isHexDigitCI (c : Char) : Bool :=
  isDigit09 c || ('a' ≤ c && c ≤ 'f') || ('A' ≤ c && c ≤ 'F')

/-! ## The validation regexes of `src/utils/auth.js` (no `i` flag) -/

/-- `ACCOUNT_NUMBER_REGEX = /^[A-Z0-9]{6,20}$/` from `src/utils/auth.js`. -/
def accountNumberMatches (s : String) : Bool :=
  decide (6 ≤ s.data.length) && decide (s.data.length ≤ 20)
    && s.data.all isUpperAlnum

/-- `SWIFT_CODE_REGEX = /^[A-Z]{6}[A-Z0-9]{2}([A-Z0-9]{3})?$/` from
`src/utils/auth.js`: 8 or 11 characters, the first six in `[A-Z]`,
the rest in `[A-Z0-9]`. -/
def swiftCodeMatches (s : String) : Bool :=
  (decide (s.data.length = 8) || decide (s.data.length = 11))
    && (s.data.take 6).all isUpperAZ
    && (s.data.drop 6).all isUpperAlnum

/-- `CURRENCY_REGEX = /^[A-Z]{3}$/` from `src/utils/auth.js`. -/
def currencyMatches (s : String) : Bool :=
  decide (s.data.length = 3) && s.data.all isUpperAZ

/-- Splits a character list on `'-'` separators (the groups of the UUID
pattern). -/
def splitDash : List Char → List (List Char)
  | [] => [[]]
  | '-' :: rest => [] :: splitDash rest
  | c :: rest =>
      match splitDash rest with
      | [] => [[c]]
      | g :: gs => (c :: g) :: gs

/-- The UUID regex
`/^[0-9a-f]{8}-[0-9a-f]{4}-[0-9a-f]{4}-[0-9a-f]{4}-[0-9a-f]{12}$/i`
used by the second payments-router variant to validate path ids. -/
def isUuidFormat (s : String) : Bool :=
  match splitDash s.data with
  | [a, b, c, d, e] =>
      decide (a.length = 8) && decide (b.length = 4) && decide (c.length = 4)
        && decide (d.length = 4) && decide (e.length = 12)
        && (a ++ b ++ c ++ d ++ e).all isHexDigitCI
  | _ => false

/-! ## Decimal amount parsing

The route code receives `amount` as a string, guards it with
`!data.amount || isNaN(data.amount) || parseFloat(data.amount) <= 0`
and then uses `parseFloat(amount)`.  We model the JavaScript numeric
reading of a canonical decimal string `digits ('.' digits?)?` as an
exact rational; strings of any other shape (on which `isNaN` would be
true, or which are falsy) parse to `none`. -/

/-- Reads a list of decimal digits as a natural number. -/
def digitsToNat (l : List Char) : Nat :=
  l.foldl (fun n c => 10 * n + (c.toNat - '0'.toNat)) 0

/-- Parses a canonical decimal string `digits ('.' digits?)?` to an
exact rational, modelling the JavaScript `Number`/`parseFloat` reading
used by the payment routes; any other shape yields `none`. -/
def parseDecimalQ (s : String) : Option ℚ :=
  let cs := s.data
  let intPart := cs.takeWhile isDigit09
  let rest := cs.dropWhile isDigit09
  if intPart.isEmpty then none
  else
    match rest with
    | [] => some (digitsToNat intPart : ℚ)
    | '.' :: fracRest =>
        if fracRest.all isDigit09 then
          some (mkRat (digitsToNat (intPart ++ fracRest)) (10 ^ fracRest.length))
        else none
    | _ => none

/-- JavaScript `String.prototype.trim`: strips whitespace from both
ends. -/
def jsTrim (s : String) : String :=
  ⟨((s.data.dropWhile Char.isWhitespace).reverse.dropWhile
    Char.isWhitespace).reverse⟩

/-- JavaScript `String.prototype.toUpperCase` on the ASCII inputs the
validators accept. -/
def jsToUpperCase (s : String) : String := ⟨s.data.map Char.toUpper⟩

/-! ## Payment input validation (`validatePaymentInput`) -/

/-- The body of `POST /api/payments/create`: all five fields arrive as
strings. -/
structure PaymentInput where
  amount : String
  currency : String
  payeeAccount : String
  swiftCode : String
  payeeName : String
deriving DecidableEq

/-- `validatePaymentInput` from `src/utils/auth.js`: collects every
failed field's message, in source order. -/
def validatePaymentInput (data : PaymentInput) : List String :=
  let amountErrs :=
    match parseDecimalQ data.amount with
    | none => ["Amount must be a positive number"]
    | some q => if q ≤ 0 then ["Amount must be a positive number"] else []
  let currencyErrs :=
    if currencyMatches data.currency then []
    else ["Currency must be a valid 3-letter code (e.g., USD, EUR, ZAR)"]
  let accountErrs :=
    if accountNumberMatches data.payeeAccount then []
    else ["Payee account must be 6-20 alphanumeric characters"]
  let swiftErrs :=
    if swiftCodeMatches data.swiftCode then []
    else ["SWIFT code must be 8 or 11 characters (e.g., SBZAZAJJ)"]
  let nameErrs :=
    if decide (2 ≤ (jsTrim data.payeeName).data.length) then []
    else ["Payee name must be at least 2 characters"]
  amountErrs ++ currencyErrs ++ accountErrs ++ swiftErrs ++ nameErrs

/-! ## The transaction table (first payments-router variant) -/

/-- A row of the `transactions` table of the first router variant
(integer ids, columns `customer_id`, `payee_account`, `swift_code`,
`payee_name`, `employee_notes`; status enum
`('pending','verified','completed','rejected')`). -/
structure Transaction where
  id : Nat
  customerId : Nat
  amount : ℚ
  currency : String
  payeeAccount : String
  swiftCode : String
  payeeName : String
  status : String
  employeeNotes : Option String
deriving DecidableEq

/-- Outcome of `POST /api/payments/create`. -/
inductive CreateResult where
  | validationFailed (details : List String)
  | limitExceeded
  | created (t : Transaction)
deriving DecidableEq

/-- `POST /api/payments/create` (first router variant): validate,
check the mock 100,000 amount limit (`parsedAmount > 100000`), then
insert a `pending` row with upper-cased currency/account/SWIFT and
trimmed payee name. -/
def createPayment (customerId : Nat) (nextId : Nat) (inp : PaymentInput) :
    CreateResult :=
  let errs := validatePaymentInput inp
  if errs.isEmpty then
    let parsedAmount := (parseDecimalQ inp.amount).getD 0
    if 100000 < parsedAmount then .limitExceeded
    else
      .created ⟨nextId, customerId, parsedAmount,
        jsToUpperCase inp.currency, jsToUpperCase inp.payeeAccount,
        jsToUpperCase inp.swiftCode, jsTrim inp.payeeName, "pending", none⟩
  else .validationFailed errs

/-! ## Audit log table -/

/-- The structured detail payload of a `SWIFT_SUBMISSION` audit row
(the JSON the route builds with `JSON.stringify`). -/
structure SwiftSubmissionDetails where
  transactionId : Nat
  swiftSubmissionId : String
  amount : ℚ
  currency : String
  payeeAccount : String
  swiftCode : String
deriving DecidableEq

/-- Detail payloads appearing in `audit_logs`: either the structured
SWIFT-submission payload inserted by the submit route, or the generic
request payload inserted by the `auditLog` middleware
(`src/middleware/auth.js`). -/
inductive AuditDetails where
  | swiftSubmission (d : SwiftSubmissionDetails)
  | request (endpoint : String) (method : String)
deriving DecidableEq

/-- A row of the `audit_logs` table (first router variant): columns
`user_id`, `action`, `details`. -/
structure AuditLogEntry where
  userId : Nat
  action : String
  details : AuditDetails
deriving DecidableEq

/-! ## Verify / reject (first router variant)

`PUT /api/payments/verify/:transactionId` first runs
`SELECT * FROM transactions WHERE id = ? AND status = "pending"`, then
runs the unconditional
`UPDATE transactions SET status = ?, employee_notes = ? WHERE id = ?`.
We embed the two SQL statements as separate functions so the
interleaving of two concurrent requests can be expressed. -/

/-- Outcome of the verify/reject route. -/
inductive VerifyResult where
  | badRequest (msg : String)
  | notFound (msg : String)
  | ok (message : String) (status : String) (notes : Option String)
deriving DecidableEq

/-- The route's guarding read:
`SELECT * FROM transactions WHERE id = ? AND status = "pending"`. -/
def selectPendingById (store : List Transaction) (txId : Nat) :
    Option Transaction :=
  store.find? (fun t => t.id == txId && t.status == "pending")

/-- The route's write:
`UPDATE transactions SET status = ?, employee_notes = ? WHERE id = ?`.
The `WHERE` clause matches on id only — the stored status is
overwritten whatever it is at write time. -/
def updateStatusNotes (store : List Transaction) (txId : Nat)
    (newStatus : String) (notes : Option String) : List Transaction :=
  store.map (fun t =>
    if t.id == txId then
      ⟨t.id, t.customerId, t.amount, t.currency, t.payeeAccount,
        t.swiftCode, t.payeeName, newStatus, notes⟩
    else t)

/-- The tail of the verify route after its guarding read: given the
read's result, either return 404 or perform the unconditional update
and answer success. -/
def verifyApply (readResult : Option Transaction) (store : List Transaction)
    (txId : Nat) (verified : Bool) (notes : Option String) :
    VerifyResult × List Transaction :=
  match readResult with
  | none => (.notFound "Transaction not found or already processed", store)
  | some _ =>
      let newStatus := if verified then "verified" else "rejected"
      let message :=
        if verified then "Transaction verified successfully"
        else "Transaction rejected successfully"
      (.ok message newStatus notes, updateStatusNotes store txId newStatus notes)

/-- `PUT /api/payments/verify/:transactionId` (first router variant),
run without interference: read then write. -/
def verifyTransaction (store : List Transaction) (txId : Nat)
    (verified : Bool) (notes : Option String) :
    VerifyResult × List Transaction :=
  verifyApply (selectPendingById store txId) store txId verified notes

/-- Two concurrent `Reject` requests on the same transaction in the
read-read-write-write interleaving: both guarding `SELECT`s execute
before either `UPDATE`.  Returns both responses and the final store. -/
def twoInterleavedReject (store : List Transaction) (txId : Nat)
    (notes1 notes2 : Option String) :
    (VerifyResult × VerifyResult) × List Transaction :=
  let r1 := selectPendingById store txId
  let r2 := selectPendingById store txId
  let p1 := verifyApply r1 store txId false notes1
  let p2 := verifyApply r2 p1.2 txId false notes2
  ((p1.1, p2.1), p2.2)

/-! ## Submit to SWIFT (first router variant)

`POST /api/payments/submit-to-swift/:transactionId` guards on
`SELECT ... WHERE id = ? AND status = "verified"`, updates the status
to `completed`, then inserts the `SWIFT_SUBMISSION` audit row.  The
audit insert is awaited inside the route's `try` block, after the
update: if it throws, the `catch` answers 500 although the update has
already committed.  The flag `auditInsertFails` injects that failure. -/

/-- Outcome of the submit-to-SWIFT routes. -/
inductive SubmitResult where
  | badRequest (msg : String)
  | notFound (msg : String)
  | ok (swiftSubmissionId : String) (status : String)
  | serverError (msg : String)
deriving DecidableEq

/-- The submit route's write:
`UPDATE transactions SET status = "completed" WHERE id = ?` — again
unconditional on the stored status. -/
def markCompleted (store : List Transaction) (txId : Nat) : List Transaction :=
  store.map (fun t =>
    if t.id == txId then
      ⟨t.id, t.customerId, t.amount, t.currency, t.payeeAccount,
        t.swiftCode, t.payeeName, "completed", t.employeeNotes⟩
    else t)

/-- `POST /api/payments/submit-to-swift/:transactionId` (first router
variant).  `nowMs` is `Date.now()` at submission time. -/
def submitToSwift (store : List Transaction) (audit : List AuditLogEntry)
    (employeeId : Nat) (txId : Nat) (nowMs : Nat) (auditInsertFails : Bool) :
    SubmitResult × List Transaction × List AuditLogEntry :=
  match store.find? (fun t => t.id == txId && t.status == "verified") with
  | none => (.notFound "Transaction not found or not verified", store, audit)
  | some tx =>
      let swiftSubmissionId := "SWIFT-" ++ toString nowMs ++ "-" ++ toString txId
      let store' := markCompleted store txId
      if auditInsertFails then (.serverError "SWIFT submission failed", store', audit)
      else
        (.ok swiftSubmissionId "completed", store',
          audit ++ [⟨employeeId, "SWIFT_SUBMISSION",
            .swiftSubmission ⟨txId, swiftSubmissionId, tx.amount, tx.currency,
              tx.payeeAccount, tx.swiftCode⟩⟩])

/-! ## Submit to SWIFT (second router variant)

The repository contains a second `payments` router whose transactions
table uses VARCHAR(36) UUID ids and columns `userId`,
`recipientAccount`, `recipientName`.  Its submit route validates the
UUID format of the path id and guards on
`SELECT ... WHERE id = ? AND status = "pending"`
("can only submit pending transactions"). -/

/-- A row of the second variant's `transactions` table. -/
structure TransactionV2 where
  id : String
  userId : String
  amount : ℚ
  currency : String
  recipientAccount : String
  swiftCode : String
  recipientName : String
  status : String
deriving DecidableEq

/-- The structured detail payload of the second variant's
`SWIFT_SUBMISSION` audit row. -/
structure SwiftSubmissionDetailsV2 where
  transactionId : String
  swiftSubmissionId : String
  amount : ℚ
  currency : String
  payeeAccount : String
  swiftCode : String
deriving DecidableEq

/-- A row of the second variant's `audit_logs` table: columns `id`,
`actorUserId`, `action`, `transactionId`, `details`. -/
structure AuditLogEntryV2 where
  id : String
  actorUserId : String
  action : String
  transactionId : String
  details : SwiftSubmissionDetailsV2
deriving DecidableEq

/-- The second variant's submit write:
`UPDATE transactions SET status = "completed" WHERE id = ?`. -/
def markCompletedV2 (store : List TransactionV2) (txId : String) :
    List TransactionV2 :=
  store.map (fun t =>
    if t.id == txId then
      ⟨t.id, t.userId, t.amount, t.currency, t.recipientAccount,
        t.swiftCode, t.recipientName, "completed"⟩
    else t)

/-- `POST /api/payments/submit-to-swift/:transactionId` (second router
variant): UUID check, guard on status `pending`, update to `completed`,
insert the audit row (`auditRowId` is the generated `crypto.randomUUID()`). -/
def submitToSwiftV2 (store : List TransactionV2) (audit : List AuditLogEntryV2)
    (actorUserId : String) (txId : String) (nowMs : Nat) (auditRowId : String)
    (auditInsertFails : Bool) :
    SubmitResult × List TransactionV2 × List AuditLogEntryV2 :=
  if !isUuidFormat txId then (.badRequest "Invalid transaction ID format", store, audit)
  else
    match store.find? (fun t => t.id == txId && t.status == "pending") with
    | none => (.notFound "Transaction not found or already processed", store, audit)
    | some tx =>
        let swiftSubmissionId := "SWIFT-" ++ toString nowMs ++ "-" ++ txId
        let store' := markCompletedV2 store txId
        if auditInsertFails then (.serverError "SWIFT submission failed", store', audit)
        else
          (.ok swiftSubmissionId "completed", store',
            audit ++ [⟨auditRowId, actorUserId, "SWIFT_SUBMISSION", txId,
              ⟨txId, swiftSubmissionId, tx.amount, tx.currency,
                tx.recipientAccount, tx.swiftCode⟩⟩])

/-! ## The employee pre-validate-and-verify flow

`handleVerifyTransaction(transactionId, true)` in the employee
dashboard: POST the payee account and SWIFT code to
`/payments/pre-validate-account`, POST the SWIFT code to
`/payments/validate-data-provider`, test both match indicators against
`'MTCH'`, and only when both match call the backend verify route with
`verified: true`; otherwise record the failing check(s) in the UI
message and make no verify call, leaving the transaction as stored.
The external responses' `account_match` and `party_agent_match` fields
are the `accountMatch` and `partyAgentMatch` parameters.  Each backend
request passes through the `auditLog` middleware, which appends a
generic `"METHOD path"` audit row. -/

/-- Outcome of the dashboard pre-validate-and-verify flow. -/
inductive PreValidateOutcome where
  | verifiedOk (r : VerifyResult)
  | checksFailed (accountValid swiftCodeValid : Bool)
deriving DecidableEq

/-- The pre-validate-and-verify flow for one transaction, with the two
external match indicators given.  Returns the outcome, the resulting
transactions table, and the resulting audit log. -/
def handlePreValidateAndVerify (store : List Transaction)
    (audit : List AuditLogEntry) (employeeId : Nat) (txId : Nat)
    (accountMatch partyAgentMatch : String) :
    PreValidateOutcome × List Transaction × List AuditLogEntry :=
  let audit1 := audit ++
    [⟨employeeId, "POST /pre-validate-account",
        .request "/api/payments/pre-validate-account" "POST"⟩,
      ⟨employeeId, "POST /validate-data-provider",
        .request "/api/payments/validate-data-provider" "POST"⟩]
  let isAccountValid := accountMatch == "MTCH"
  let isSwiftCodeValid := partyAgentMatch == "MTCH"
  if isAccountValid && isSwiftCodeValid then
    let p := verifyTransaction store txId true
      (some "Transaction verified after Swift pre-validation")
    (.verifiedOk p.1, p.2,
      audit1 ++ [⟨employeeId, "PUT /verify/:transactionId",
        .request "/api/payments/verify" "PUT"⟩])
  else
    (.checksFailed isAccountValid isSwiftCodeValid, store, audit1)

/-! ## The `auditLog` middleware (`src/middleware/auth.js`)

The middleware wraps `res.send`: the original response is always
forwarded, and the audit insert runs afterwards inside its own
`try`/`catch` whose `catch` only logs — an insert failure never
reaches the client. -/

/-- The wrapped `res.send` of the `auditLog` middleware: forwards the
response unchanged; appends the audit row only when the insert
succeeds. -/
def auditLogMiddlewareSend (response : String) (audit : List AuditLogEntry)
    (entry : AuditLogEntry) (insertFails : Bool) :
    String × List AuditLogEntry :=
  (response, if insertFails then audit else audit ++ [entry])

/-! ## SWIFT OAuth2 token lifecycle (`src/services/swiftAuthService.js`)

The module-level mutable cell `accessToken` / `refreshToken` /
`tokenExpiresAt` becomes an explicit `TokenState`.  Time is the
rational `Date.now() / 1000`.  The token endpoint is modelled by two
oracles: `refreshOracle` maps the presented refresh token to the
endpoint's response (the refresh-token grant never uses the signing
identity), and `requestOracle` maps the signing-identity subject DN —
from which the JWT-bearer assertion is built — to the endpoint's
response. -/

/-- The module-level token cache: `accessToken`, `refreshToken`,
`tokenExpiresAt` (seconds). -/
structure TokenState where
  accessToken : Option String
  refreshToken : Option String
  tokenExpiresAt : ℚ
deriving DecidableEq

/-- The token endpoint's JSON response body: `access_token`,
`refresh_token`, `expires_in`. -/
structure TokenResponse where
  access_token : String
  refresh_token : Option String
  expires_in : ℚ
deriving DecidableEq

/-- The outbound network call an invocation of `getAccessToken`
performs, if any. -/
inductive NetworkCall where
  | none
  | refreshCall (refreshTokenUsed : String)
  | tokenRequest (subjectDn : String)
deriving DecidableEq

/-- The shared tail of `refreshAccessToken` / `requestAccessToken`:
store the response's tokens and set
`tokenExpiresAt = Math.floor(Date.now() / 1000) + expires_in`. -/
def storeTokenResponse (now : ℚ) (r : TokenResponse) : TokenState :=
  ⟨some r.access_token, r.refresh_token, (⌊now⌋ : ℚ) + r.expires_in⟩

/-- The refresh-or-request branch of `getAccessToken`: with a refresh
token held, `refreshAccessToken()` (no signing identity involved);
otherwise `requestAccessToken(subjectDn)`. -/
def refreshOrRequest (refreshOracle : String → TokenResponse)
    (requestOracle : String → TokenResponse) (now : ℚ) (subjectDn : String)
    (s : TokenState) : String × TokenState × NetworkCall :=
  match s.refreshToken with
  | some rt =>
      let r := refreshOracle rt
      (r.access_token, storeTokenResponse now r, .refreshCall rt)
  | none =>
      let r := requestOracle subjectDn
      (r.access_token, storeTokenResponse now r, .tokenRequest subjectDn)

/-- `getAccessToken(subjectDn)`: return the cached access token unless
none is held or `Date.now() / 1000 >= tokenExpiresAt - 60`, in which
case refresh or request a new token. -/
def getAccessToken (refreshOracle requestOracle : String → TokenResponse)
    (now : ℚ) (subjectDn : String) (s : TokenState) :
    String × TokenState × NetworkCall :=
  match s.accessToken with
  | some tok =>
      if s.tokenExpiresAt - 60 ≤ now then
        refreshOrRequest refreshOracle requestOracle now subjectDn s
      else (tok, s, .none)
  | none => refreshOrRequest refreshOracle requestOracle now subjectDn s

/-- Outcome of `disposeAccessToken()`. -/
inductive DisposeResult where
  | noToken
  | disposed
  | revokeThrew
deriving DecidableEq

/-- `disposeAccessToken()`: with no token held, do nothing and make no
call.  With a token held, call the revocation endpoint; only on a
successful call are the cached tokens cleared — the `catch` block logs
and rethrows without touching the cache.  The third component records
whether the revocation endpoint was called. -/
def disposeAccessToken (s : TokenState) (revokeCallSucceeds : Bool) :
    DisposeResult × TokenState × Bool :=
  match s.accessToken with
  | none => (.noToken, s, false)
  | some _ =>
      if revokeCallSucceeds then (.disposed, ⟨none, none, 0⟩, true)
      else (.revokeThrew, s, true)

/-! ## Fixtures for concrete instantiations -/

/-- A sample `pending` transaction. -/
def samplePendingTx : Transaction :=
  ⟨1, 7, 500, "USD", "PAYEE123", "SBZAZAJJ", "Jane Smith", "pending", none⟩

/-- The same transaction in status `verified`. -/
def sampleVerifiedTx : Transaction :=
  ⟨1, 7, 500, "USD", "PAYEE123", "SBZAZAJJ", "Jane Smith", "verified", none⟩

/-- A sample UUID accepted by `isUuidFormat`. -/
def sampleUuid : String := "11111111-1111-4111-8111-111111111111"

/-- A sample `pending` transaction of the second router variant. -/
def samplePendingTxV2 : TransactionV2 :=
  ⟨sampleUuid, "u1", 500, "USD", "PAYEE123", "SBZAZAJJ", "Jane Smith", "pending"⟩

/-! ## Helper lemmas -/

/-- After `updateStatusNotes`, every row with the targeted id carries the
new status, whatever its previous status was. -/
theorem status_of_mem_updateStatusNotes {store : List Transaction}
    {txId : Nat} {ns : String} {notes : Option String} {t : Transaction}
    (hmem : t ∈ updateStatusNotes store txId ns notes) (hid : t.id = txId) :
    t.status = ns := by
  simp only [updateStatusNotes, List.mem_map] at hmem
  obtain ⟨a, -, hfa⟩ := hmem
  by_cases h : a.id = txId
  · rw [if_pos (by simpa using h)] at hfa
    rw [← hfa]
  · rw [if_neg (by simpa using h)] at hfa
    rw [← hfa] at hid
    exact absurd hid h

/-- After `markCompleted`, every row with the targeted id has status
`completed`. -/
theorem status_of_mem_markCompleted {store : List Transaction}
    {txId : Nat} {t : Transaction}
    (hmem : t ∈ markCompleted store txId) (hid : t.id = txId) :
    t.status = "completed" := by
  simp only [markCompleted, List.mem_map] at hmem
  obtain ⟨a, -, hfa⟩ := hmem
  by_cases h : a.id = txId
  · rw [if_pos (by simpa using h)] at hfa
    rw [← hfa]
  · rw [if_neg (by simpa using h)] at hfa
    rw [← hfa] at hid
    exact absurd hid h

/-! ## C1 — the status update is not a compare-and-swap -/

/-- C1 counterexample: two `Reject` requests on the same `pending`
transaction, interleaved read-read-write-write, BOTH answer success
("Transaction rejected successfully"); neither receives a conflict
error, and the second silently overwrites the first's notes.  This
refutes the claim that the status update is a compare-and-swap under
which exactly one of two concurrent transitions succeeds. -/
theorem interleaved_rejects_both_succeed_cex :
    twoInterleavedReject [samplePendingTx] 1
        (some "first employee") (some "second employee") =
      ((.ok "Transaction rejected successfully" "rejected" (some "first employee"),
        .ok "Transaction rejected successfully" "rejected" (some "second employee")),
       [⟨1, 7, 500, "USD", "PAYEE123", "SBZAZAJJ", "Jane Smith", "rejected",
          some "second employee"⟩]) := by decide

/-- C1 (amended): the employee transitions are check-then-act, not
compare-and-swap: the status is checked only by the guarding `SELECT`,
and the `UPDATE` matches on id alone.  Hence whenever the guarding read
of a transaction finds it `pending`, two interleaved `Reject`
operations (both reads before both writes) BOTH report success — no
`ConflictError` exists — and the transaction's rows end up `rejected`
by silent overwrite. -/
theorem updateStatus_not_compare_and_swap
    (store : List Transaction) (txId : Nat) (notes1 notes2 : Option String)
    (h : (selectPendingById store txId).isSome = true) :
    (twoInterleavedReject store txId notes1 notes2).1.1 =
        .ok "Transaction rejected successfully" "rejected" notes1
    ∧ (twoInterleavedReject store txId notes1 notes2).1.2 =
        .ok "Transaction rejected successfully" "rejected" notes2
    ∧ ∀ t ∈ (twoInterleavedReject store txId notes1 notes2).2,
        t.id = txId → t.status = "rejected" := by
  obtain ⟨tx, htx⟩ := Option.isSome_iff_exists.mp h
  refine ⟨?_, ?_, ?_⟩
  · simp [twoInterleavedReject, verifyApply, htx]
  · simp [twoInterleavedReject, verifyApply, htx]
  · intro t hmem hid
    simp only [twoInterleavedReject, verifyApply, htx] at hmem
    exact status_of_mem_updateStatusNotes hmem hid

/-- C1 witness: the amended theorem instantiated on the sample store. -/
theorem updateStatus_not_compare_and_swap_witness :
    (twoInterleavedReject [samplePendingTx] 1 (some "a") (some "b")).1.1 =
      .ok "Transaction rejected successfully" "rejected" (some "a") :=
  (updateStatus_not_compare_and_swap [samplePendingTx] 1
    (some "a") (some "b") (by decide)).1

/-! ## C2 — pre-validate-and-verify outcome -/

/-- C2 counterexample: on a `pending` transaction, when the account
check reports a non-match (`"ACNF"`) while the data-provider check
matches, the flow reports the failing check and leaves the transaction
`pending` — it is NOT transitioned to `rejected`, and no
`"TRANSACTION_VERIFIED"` audit entry exists (the only appended entries
are the generic middleware rows for the two pre-validation calls).
This refutes the claim that a failed check transitions the status to
`rejected`. -/
theorem preValidate_failed_check_leaves_pending_cex :
    handlePreValidateAndVerify [samplePendingTx] [] 9 1 "ACNF" "MTCH" =
      (.checksFailed false true, [samplePendingTx],
        [⟨9, "POST /pre-validate-account",
            .request "/api/payments/pre-validate-account" "POST"⟩,
          ⟨9, "POST /validate-data-provider",
            .request "/api/payments/validate-data-provider" "POST"⟩])
    ∧ samplePendingTx.status = "pending" := by decide

/-- C2 (amended): for a transaction the guarding read finds `pending`,
the pre-validate-and-verify flow transitions it to `verified` exactly
when both external checks report the positive match indicator `"MTCH"`;
otherwise it reports which check(s) failed and leaves the stored
transaction unchanged (still `pending`), making no verify call.  No
`"TRANSACTION_VERIFIED"` audit entry is appended on any outcome — only
generic per-request middleware rows. -/
theorem preValidateAndVerify_spec
    (store : List Transaction) (audit : List AuditLogEntry)
    (employeeId txId : Nat) (m1 m2 : String) (tx : Transaction)
    (htx : selectPendingById store txId = some tx) :
    (m1 = "MTCH" → m2 = "MTCH" →
      (handlePreValidateAndVerify store audit employeeId txId m1 m2).1 =
        .verifiedOk (.ok "Transaction verified successfully" "verified"
          (some "Transaction verified after Swift pre-validation"))
      ∧ ∀ t ∈ (handlePreValidateAndVerify store audit employeeId txId m1 m2).2.1,
          t.id = txId → t.status = "verified")
    ∧ (¬(m1 = "MTCH" ∧ m2 = "MTCH") →
      (handlePreValidateAndVerify store audit employeeId txId m1 m2).1 =
        .checksFailed (m1 == "MTCH") (m2 == "MTCH")
      ∧ (handlePreValidateAndVerify store audit employeeId txId m1 m2).2.1 = store)
    ∧ (∀ e ∈ (handlePreValidateAndVerify store audit employeeId txId m1 m2).2.2,
        e ∈ audit ∨ e.action ≠ "TRANSACTION_VERIFIED") := by
  refine ⟨?_, ?_, ?_⟩
  · intro h1 h2
    subst h1; subst h2
    constructor
    · simp [handlePreValidateAndVerify, verifyTransaction, verifyApply, htx]
    · intro t hmem hid
      simp only [handlePreValidateAndVerify, verifyTransaction, verifyApply,
        htx] at hmem
      simp at hmem
      exact status_of_mem_updateStatusNotes hmem hid
  · intro hno
    have hb : (m1 == "MTCH" && m2 == "MTCH") = false := by
      cases h1 : (m1 == "MTCH") <;> cases h2 : (m2 == "MTCH") <;> simp_all
    constructor
    · simp [handlePreValidateAndVerify, hb]
    · simp [handlePreValidateAndVerify, hb]
  · intro e he
    by_cases hb : (m1 == "MTCH" && m2 == "MTCH") = true
    · simp only [handlePreValidateAndVerify, verifyTransaction, verifyApply,
        htx, hb, if_true] at he
      simp [List.mem_append] at he
      rcases he with he | he | he | he
      · exact Or.inl he
      · exact Or.inr (by rw [he]; simp)
      · exact Or.inr (by rw [he]; simp)
      · exact Or.inr (by rw [he]; simp)
    · simp [handlePreValidateAndVerify, eq_false_of_ne_true hb] at he
      rcases he with he | he | he
      · exact Or.inl he
      · exact Or.inr (by rw [he]; simp)
      · exact Or.inr (by rw [he]; simp)

/-- C2 witness: all three parts of the amended theorem instantiated on
the sample store, with both checks matching for the first part. -/
theorem preValidateAndVerify_spec_witness :
    (handlePreValidateAndVerify [samplePendingTx] [] 9 1 "MTCH" "MTCH").1 =
      .verifiedOk (.ok "Transaction verified successfully" "verified"
        (some "Transaction verified after Swift pre-validation")) :=
  ((preValidateAndVerify_spec [samplePendingTx] [] 9 1 "MTCH" "MTCH"
    samplePendingTx (by decide)).1 rfl rfl).1

/-! ## C3 — transition guards -/

/-- C3 counterexample: in the second router variant, submit-to-SWIFT
SUCCEEDS on a transaction whose status is `pending` (its guard is
`status = "pending"`, "can only submit pending transactions"), refuting
the claim that SubmitToNetwork succeeds only from `verified`. -/
theorem submitV2_pending_succeeds_cex :
    samplePendingTxV2.status = "pending"
    ∧ (submitToSwiftV2 [samplePendingTxV2] [] "e1" sampleUuid 17000 "a1"
        false).1 =
      .ok ("SWIFT-17000-" ++ sampleUuid) "completed" := by decide

/-- C3 (amended): in the first router variant, verify and Reject answer
404 ("Transaction not found or already processed") and leave the table
unchanged whenever no row with the given id is `pending`, and
submit-to-SWIFT answers 404 ("Transaction not found or not verified")
and changes nothing whenever no row with the given id is `verified` —
the failure is a 404 not-found response, there being no
`InvalidStateError` type; a successful first-variant submit requires a
`verified` row.  In the second router variant a successful submit
instead requires a `pending` row. -/
theorem transition_guards_spec :
    (∀ (store : List Transaction) (txId : Nat) (verified : Bool)
        (notes : Option String),
      (∀ t ∈ store, t.id = txId → t.status ≠ "pending") →
      verifyTransaction store txId verified notes =
        (.notFound "Transaction not found or already processed", store))
    ∧ (∀ (store : List Transaction) (audit : List AuditLogEntry)
        (employeeId txId nowMs : Nat) (auditFails : Bool),
      (∀ t ∈ store, t.id = txId → t.status ≠ "verified") →
      submitToSwift store audit employeeId txId nowMs auditFails =
        (.notFound "Transaction not found or not verified", store, audit))
    ∧ (∀ (store : List Transaction) (audit : List AuditLogEntry)
        (employeeId txId nowMs : Nat) (auditFails : Bool) (sid st : String)
        (store' : List Transaction) (audit' : List AuditLogEntry),
      submitToSwift store audit employeeId txId nowMs auditFails =
        (.ok sid st, store', audit') →
      ∃ t ∈ store, t.id = txId ∧ t.status = "verified")
    ∧ (∀ (store : List TransactionV2) (audit : List AuditLogEntryV2)
        (actor txId : String) (nowMs : Nat) (auditRowId : String)
        (auditFails : Bool) (sid st : String) (store' : List TransactionV2)
        (audit' : List AuditLogEntryV2),
      submitToSwiftV2 store audit actor txId nowMs auditRowId auditFails =
        (.ok sid st, store', audit') →
      ∃ t ∈ store, t.id = txId ∧ t.status = "pending") := by
  refine ⟨?_, ?_, ?_, ?_⟩
  · intro store txId verified notes h
    have hfind : selectPendingById store txId = none := by
      rw [selectPendingById, List.find?_eq_none]
      intro t ht
      simp only [Bool.and_eq_true, beq_iff_eq, not_and]
      exact h t ht
    simp [verifyTransaction, verifyApply, hfind]
  · intro store audit employeeId txId nowMs auditFails h
    have hfind :
        store.find? (fun t => t.id == txId && t.status == "verified") = none := by
      rw [List.find?_eq_none]
      intro t ht
      simp only [Bool.and_eq_true, beq_iff_eq, not_and]
      exact h t ht
    simp [submitToSwift, hfind]
  · intro store audit employeeId txId nowMs auditFails sid st store' audit' heq
    cases hfind :
        store.find? (fun t => t.id == txId && t.status == "verified") with
    | none => simp [submitToSwift, hfind] at heq
    | some tx =>
        have hp := List.find?_some hfind
        have hm := List.mem_of_find?_eq_some hfind
        simp only [Bool.and_eq_true, beq_iff_eq] at hp
        exact ⟨tx, hm, hp.1, hp.2⟩
  · intro store audit actor txId nowMs auditRowId auditFails sid st store'
      audit' heq
    cases hu : isUuidFormat txId with
    | false => simp [submitToSwiftV2, hu] at heq
    | true =>
        cases hfind :
            store.find? (fun t => t.id == txId && t.status == "pending") with
        | none => simp [submitToSwiftV2, hu, hfind] at heq
        | some tx =>
            have hp := List.find?_some hfind
            have hm := List.mem_of_find?_eq_some hfind
            simp only [Bool.and_eq_true, beq_iff_eq] at hp
            exact ⟨tx, hm, hp.1, hp.2⟩

/-- C3 witness: verify on a `verified` (hence non-`pending`) transaction
answers 404 and leaves the store unchanged. -/
theorem transition_guards_spec_witness :
    verifyTransaction [sampleVerifiedTx] 1 true none =
      (.notFound "Transaction not found or already processed",
        [sampleVerifiedTx]) :=
  transition_guards_spec.1 [sampleVerifiedTx] 1 true none (by decide)

/-! ## C4 — creation normalization and the concrete round trip -/

/-- C4 counterexample: the claimed round-trip input with lower-case
currency "usd", payee account "payee123" and SWIFT "sbzazajj" is
REJECTED by `validatePaymentInput` (whose regexes are case-sensitive,
having no `i` flag), so the creation fails with a field-level
validation error instead of succeeding. -/
theorem create_lowercase_input_rejected_cex :
    createPayment 7 1 ⟨"1000.50", "usd", "payee123", "sbzazajj", "Jane Smith"⟩ =
      .validationFailed
        ["Currency must be a valid 3-letter code (e.g., USD, EUR, ZAR)",
          "Payee account must be 6-20 alphanumeric characters",
          "SWIFT code must be 8 or 11 characters (e.g., SBZAZAJJ)"] := by decide

/-- C4 (amended): every creation input accepted by Create is stored
with status `pending`, with `toUpperCase` applied to currency, payee
account and SWIFT code and the payee name trimmed — but the validator
only accepts already-upper-case currency/account/SWIFT (its regexes
are case-sensitive), so the claimed lower-case example is rejected;
the same input with fields already upper-cased ("USD", "PAYEE123",
"SBZAZAJJ") succeeds and is stored as amount=1000.50, currency="USD",
payeeAccount="PAYEE123", swiftCode="SBZAZAJJ". -/
theorem create_normalization_spec :
    (∀ (customerId nextId : Nat) (inp : PaymentInput) (tx : Transaction),
      createPayment customerId nextId inp = .created tx →
      tx.status = "pending"
      ∧ tx.currency = jsToUpperCase inp.currency
      ∧ tx.payeeAccount = jsToUpperCase inp.payeeAccount
      ∧ tx.swiftCode = jsToUpperCase inp.swiftCode
      ∧ tx.payeeName = jsTrim inp.payeeName)
    ∧ createPayment 7 1 ⟨"1000.50", "USD", "PAYEE123", "SBZAZAJJ", "Jane Smith"⟩ =
        .created ⟨1, 7, (1000.50 : ℚ), "USD", "PAYEE123", "SBZAZAJJ",
          "Jane Smith", "pending", none⟩ := by
  constructor
  · intro customerId nextId inp tx heq
    simp only [createPayment] at heq
    by_cases h1 : (validatePaymentInput inp).isEmpty
    · rw [if_pos h1] at heq
      by_cases h2 : (100000 : ℚ) < (parseDecimalQ inp.amount).getD 0
      · rw [if_pos h2] at heq
        simp at heq
      · rw [if_neg h2] at heq
        simp only [CreateResult.created.injEq] at heq
        rw [← heq]
        exact ⟨rfl, rfl, rfl, rfl, rfl⟩
    · rw [if_neg h1] at heq
      simp at heq
  · have hamt : (1000.50 : ℚ) = mkRat 100050 100 := by
      norm_num [Rat.mkRat_eq_div]
    rw [hamt]
    decide

/-- C4 witness: the normalization part applied to a concrete accepted
creation. -/
theorem create_normalization_spec_witness :
    createPayment 7 2 ⟨"250.75", "EUR", "ACCT9999", "ABCDEF12", "Max Muster"⟩ =
      .created ⟨2, 7, mkRat 25075 100, "EUR", "ACCT9999", "ABCDEF12",
        "Max Muster", "pending", none⟩
    ∧ (⟨2, 7, mkRat 25075 100, "EUR", "ACCT9999", "ABCDEF12", "Max Muster",
        "pending", none⟩ : Transaction).status = "pending" :=
  ⟨by decide, (create_normalization_spec.1 7 2
    ⟨"250.75", "EUR", "ACCT9999", "ABCDEF12", "Max Muster"⟩
    ⟨2, 7, mkRat 25075 100, "EUR", "ACCT9999", "ABCDEF12", "Max Muster",
      "pending", none⟩ (by decide)).1⟩

/-! ## C5 — inclusive amount ceiling -/

/-- C5: the creation amount limit (`parsedAmount > 100000` in the
route) is inclusive at 100,000: an otherwise-valid input is created
exactly when the parsed amount is at most 100,000 and rejected with the
limit error when it exceeds it; concretely "100000.01" is rejected and
"100000.00" is accepted and stored with amount 100000. -/
theorem amount_ceiling_inclusive :
    (∀ (customerId nextId : Nat) (inp : PaymentInput) (q : ℚ),
      validatePaymentInput inp = [] → parseDecimalQ inp.amount = some q →
      (q ≤ 100000 →
        ∃ tx, createPayment customerId nextId inp = .created tx ∧ tx.amount = q)
      ∧ (100000 < q →
        createPayment customerId nextId inp = .limitExceeded))
    ∧ createPayment 7 1 ⟨"100000.01", "USD", "PAYEE123", "SBZAZAJJ",
        "Jane Smith"⟩ = .limitExceeded
    ∧ createPayment 7 1 ⟨"100000.00", "USD", "PAYEE123", "SBZAZAJJ",
        "Jane Smith"⟩ =
      .created ⟨1, 7, 100000, "USD", "PAYEE123", "SBZAZAJJ", "Jane Smith",
        "pending", none⟩ := by
  refine ⟨?_, by decide, by decide⟩
  intro customerId nextId inp q hval hparse
  have hempty : (validatePaymentInput inp).isEmpty = true := by
    rw [hval]; rfl
  constructor
  · intro hle
    refine ⟨⟨nextId, customerId, q, jsToUpperCase inp.currency,
      jsToUpperCase inp.payeeAccount, jsToUpperCase inp.swiftCode,
      jsTrim inp.payeeName, "pending", none⟩, ?_, rfl⟩
    simp only [createPayment, hempty, if_pos, hparse, Option.getD_some]
    rw [if_neg (not_lt.mpr hle)]
  · intro hlt
    simp only [createPayment, hempty, if_pos, hparse, Option.getD_some]
    rw [if_pos hlt]

/-- C5 witness: the universal part applied to a concrete below-ceiling
input. -/
theorem amount_ceiling_inclusive_witness :
    ∃ tx, createPayment 3 5 ⟨"99999.99", "ZAR", "ACCOUNT77", "SBZAZAJJ",
      "Jo Soap"⟩ = .created tx ∧ tx.amount = mkRat 9999999 100 :=
  (amount_ceiling_inclusive.1 3 5
    ⟨"99999.99", "ZAR", "ACCOUNT77", "SBZAZAJJ", "Jo Soap"⟩
    (mkRat 9999999 100) (by decide) (by decide)).1 (by decide)

/-! ## C6 — token idempotence within the validity window -/

/-- C6: when a cached token expires more than 60 seconds from now,
`getAccessToken` returns it unchanged with no network call and leaves
the cache untouched, so a second call within the window returns the
same access token, again with no network call; and whenever a held
token is within 60 seconds of expiry it is treated as expired,
triggering a refresh-token grant when a refresh token is held and a
new JWT-bearer request otherwise. -/
theorem getValidToken_idempotent_within_window
    (refreshOracle requestOracle : String → TokenResponse)
    (now now2 : ℚ) (dn dn2 : String) (s : TokenState) (tok : String)
    (hcache : s.accessToken = some tok)
    (hlive : now < s.tokenExpiresAt - 60) :
    getAccessToken refreshOracle requestOracle now dn s = (tok, s, .none)
    ∧ (now2 < s.tokenExpiresAt - 60 →
      getAccessToken refreshOracle requestOracle now2 dn2 s = (tok, s, .none))
    ∧ (∀ (s2 : TokenState) (t2 rt : String), s2.accessToken = some t2 →
      s2.tokenExpiresAt - 60 ≤ now →
      (s2.refreshToken = some rt →
        (getAccessToken refreshOracle requestOracle now dn s2).2.2 =
          .refreshCall rt)
      ∧ (s2.refreshToken = none →
        (getAccessToken refreshOracle requestOracle now dn s2).2.2 =
          .tokenRequest dn)) := by
  refine ⟨?_, ?_, ?_⟩
  · simp only [getAccessToken, hcache]
    rw [if_neg (not_le.mpr hlive)]
  · intro h2
    simp only [getAccessToken, hcache]
    rw [if_neg (not_le.mpr h2)]
  · intro s2 t2 rt h2 hexp
    constructor
    · intro hrt
      simp only [getAccessToken, h2, if_pos hexp]
      simp [refreshOrRequest, hrt]
    · intro hrt
      simp only [getAccessToken, h2, if_pos hexp]
      simp [refreshOrRequest, hrt]

/-- C6 witness: the cached-return part on a concrete live cache. -/
theorem getValidToken_idempotent_within_window_witness :
    getAccessToken (fun _ => ⟨"x", none, 0⟩) (fun _ => ⟨"y", none, 0⟩)
      900 "dn" ⟨some "tokA", some "refA", 1000⟩ =
      ("tokA", ⟨some "tokA", some "refA", 1000⟩, .none) :=
  (getValidToken_idempotent_within_window (fun _ => ⟨"x", none, 0⟩)
    (fun _ => ⟨"y", none, 0⟩) 900 900 "dn" "dn"
    ⟨some "tokA", some "refA", 1000⟩ "tokA" rfl (by norm_num)).1

/-! ## C7 — revoke clears the cache only on success -/

/-- C7 counterexample: with a token held and the revocation call
failing, `disposeAccessToken` rethrows WITHOUT clearing the cache: the
access token, refresh token and expiry are all left in place.  This
refutes the claim that the cache is cleared regardless of the
revocation-call outcome. -/
theorem revoke_failure_keeps_token_cex :
    disposeAccessToken ⟨some "tokA", some "refA", 1000⟩ false =
      (.revokeThrew, ⟨some "tokA", some "refA", 1000⟩, true)
    ∧ (⟨some "tokA", some "refA", 1000⟩ : TokenState).accessToken =
        some "tokA" := by decide

/-- C7 (amended): `disposeAccessToken` with no token held does nothing
and makes no revocation call; with a token held it calls the
revocation endpoint, clearing the cached pair and expiry only when the
call succeeds — on failure the error propagates and the cache is left
intact. -/
theorem dispose_spec (s : TokenState) :
    (s.accessToken = none →
      disposeAccessToken s true = (.noToken, s, false)
      ∧ disposeAccessToken s false = (.noToken, s, false))
    ∧ (∀ tok, s.accessToken = some tok →
      disposeAccessToken s true = (.disposed, ⟨none, none, 0⟩, true)
      ∧ disposeAccessToken s false = (.revokeThrew, s, true)) := by
  constructor
  · intro h
    constructor <;> simp [disposeAccessToken, h]
  · intro tok h
    constructor <;> simp [disposeAccessToken, h]

/-- C7 witness: the successful-revocation part on a concrete held
token. -/
theorem dispose_spec_witness :
    disposeAccessToken ⟨some "tokB", some "refB", 2000⟩ true =
      (.disposed, ⟨none, none, 0⟩, true) :=
  ((dispose_spec ⟨some "tokB", some "refB", 2000⟩).2 "tokB" rfl).1

/-! ## C10 — the served token does not depend on the signing identity -/

/-- C10: with a live cached token, `getAccessToken` returns the same
result for any two signing identities and performs no network call;
and whenever a refresh token is held the refresh path's result is
likewise identical for any two signing identities — a token acquired
under one identity is served to callers presenting another. -/
theorem token_ignores_signing_identity
    (refreshOracle requestOracle : String → TokenResponse)
    (now : ℚ) (dn1 dn2 : String) (s : TokenState) :
    (∀ tok, s.accessToken = some tok → now < s.tokenExpiresAt - 60 →
      getAccessToken refreshOracle requestOracle now dn1 s =
        getAccessToken refreshOracle requestOracle now dn2 s
      ∧ (getAccessToken refreshOracle requestOracle now dn1 s).2.2 = .none)
    ∧ (∀ rt, s.refreshToken = some rt →
      refreshOrRequest refreshOracle requestOracle now dn1 s =
        refreshOrRequest refreshOracle requestOracle now dn2 s
      ∧ getAccessToken refreshOracle requestOracle now dn1 s =
        getAccessToken refreshOracle requestOracle now dn2 s) := by
  constructor
  · intro tok h hlt
    constructor
    · simp only [getAccessToken, h, if_neg (not_le.mpr hlt)]
    · simp only [getAccessToken, h, if_neg (not_le.mpr hlt)]
  · intro rt h
    have hro : refreshOrRequest refreshOracle requestOracle now dn1 s =
        refreshOrRequest refreshOracle requestOracle now dn2 s := by
      simp [refreshOrRequest, h]
    refine ⟨hro, ?_⟩
    cases ha : s.accessToken with
    | none =>
        simp only [getAccessToken, ha]
        exact hro
    | some t =>
        simp only [getAccessToken, ha]
        split
        · exact hro
        · rfl

/-- C10 witness: two different signing identities receive the same
cached token. -/
theorem token_ignores_signing_identity_witness :
    getAccessToken (fun _ => ⟨"x", none, 0⟩) (fun _ => ⟨"y", none, 0⟩)
      900 "cn=alice" ⟨some "tokA", none, 1000⟩ =
    getAccessToken (fun _ => ⟨"x", none, 0⟩) (fun _ => ⟨"y", none, 0⟩)
      900 "cn=bob" ⟨some "tokA", none, 1000⟩ :=
  ((token_ignores_signing_identity (fun _ => ⟨"x", none, 0⟩)
    (fun _ => ⟨"y", none, 0⟩) 900 "cn=alice" "cn=bob"
    ⟨some "tokA", none, 1000⟩).1 "tokA" rfl (by norm_num)).1

/-! ## C8 — audit-persistence failure handling -/

/-- C8 counterexample: on a `verified` transaction, when the inline
`SWIFT_SUBMISSION` audit insert of the submit route fails, the caller
receives the 500 error "SWIFT submission failed" even though the
status update to `completed` has already committed — refuting the
claim that an audit-persistence failure never changes the operation's
outcome. -/
theorem audit_failure_faults_submit_cex :
    submitToSwift [sampleVerifiedTx] [] 9 1 17000 true =
      (.serverError "SWIFT submission failed",
        [⟨1, 7, 500, "USD", "PAYEE123", "SBZAZAJJ", "Jane Smith", "completed",
          none⟩], []) := by decide

/-- C8 (amended): the `auditLog` middleware's wrapped `res.send`
forwards the response unchanged whether or not the audit insert fails
(its failure is only logged); but the submit-to-SWIFT route awaits its
`SWIFT_SUBMISSION` audit insert inside the route's `try` block after
the status update, so an insert failure there produces a 500 error
response although the transaction is already `completed`. -/
theorem audit_failure_handling_spec :
    (∀ (response : String) (audit : List AuditLogEntry)
        (entry : AuditLogEntry) (insertFails : Bool),
      (auditLogMiddlewareSend response audit entry insertFails).1 = response)
    ∧ (∀ (store : List Transaction) (audit : List AuditLogEntry)
        (employeeId txId nowMs : Nat) (tx : Transaction),
      store.find? (fun t => t.id == txId && t.status == "verified") = some tx →
      submitToSwift store audit employeeId txId nowMs true =
        (.serverError "SWIFT submission failed", markCompleted store txId,
          audit)) := by
  constructor
  · intro response audit entry insertFails
    rfl
  · intro store audit employeeId txId nowMs tx hfind
    simp [submitToSwift, hfind]

/-- C8 witness: the route part of the amended theorem on a concrete
verified transaction. -/
theorem audit_failure_handling_spec_witness :
    submitToSwift [sampleVerifiedTx] [] 9 1 17000 true =
      (.serverError "SWIFT submission failed",
        markCompleted [sampleVerifiedTx] 1, []) :=
  audit_failure_handling_spec.2 [sampleVerifiedTx] [] 9 1 17000
    sampleVerifiedTx (by decide)

/-! ## C9 — successful submission from `verified` -/

/-- C9: submit-to-SWIFT on a transaction the guarding read finds
`verified` (with the audit insert succeeding) answers success with a
submission reference that ends in the transaction id
(`SWIFT-<timestamp>-<id>`), leaves every row with that id in final
status `completed`, and appends exactly one `SWIFT_SUBMISSION` audit
entry whose detail payload captures the transaction's amount, currency,
payee account and SWIFT code. -/
theorem submit_verified_spec
    (store : List Transaction) (audit : List AuditLogEntry)
    (employeeId txId nowMs : Nat) (tx : Transaction)
    (hfind : store.find? (fun t => t.id == txId && t.status == "verified") =
      some tx) :
    submitToSwift store audit employeeId txId nowMs false =
      (.ok (("SWIFT-" ++ toString nowMs ++ "-") ++ toString txId) "completed",
        markCompleted store txId,
        audit ++ [⟨employeeId, "SWIFT_SUBMISSION",
          .swiftSubmission ⟨txId,
            ("SWIFT-" ++ toString nowMs ++ "-") ++ toString txId,
            tx.amount, tx.currency, tx.payeeAccount, tx.swiftCode⟩⟩])
    ∧ (∀ t ∈ markCompleted store txId, t.id = txId → t.status = "completed")
    ∧ (((submitToSwift store audit employeeId txId nowMs false).2.2).filter
          (fun e => e.action == "SWIFT_SUBMISSION")).length =
      (audit.filter (fun e => e.action == "SWIFT_SUBMISSION")).length + 1 := by
  refine ⟨?_, ?_, ?_⟩
  · simp [submitToSwift, hfind]
  · intro t hmem hid
    exact status_of_mem_markCompleted hmem hid
  · simp [submitToSwift, hfind, List.filter_append]

/-- C9 witness: the submission on a concrete verified transaction. -/
theorem submit_verified_spec_witness :
    submitToSwift [sampleVerifiedTx] [] 9 1 17000 false =
      (.ok (("SWIFT-" ++ toString 17000 ++ "-") ++ toString 1) "completed",
        markCompleted [sampleVerifiedTx] 1,
        [⟨9, "SWIFT_SUBMISSION",
          .swiftSubmission ⟨1, ("SWIFT-" ++ toString 17000 ++ "-") ++ toString 1,
            sampleVerifiedTx.amount, sampleVerifiedTx.currency,
            sampleVerifiedTx.payeeAccount, sampleVerifiedTx.swiftCode⟩⟩]) :=
  (submit_verified_spec [sampleVerifiedTx] [] 9 1 17000 sampleVerifiedTx
    (by decide)).1

end Zenipay
